import Mathlib

/-!
Shallow embedding of the GPIO doorbell accessory
(`src/unnamed/part_000`, class `GpioDoorbellAccessory`): the
debounce / throttle / mute state machine around `handlePinChange`,
`handleMuteSet` and `read`, together with the construction-time state
bootstrap. `Option` models JavaScript `undefined`; times are natural
numbers of milliseconds.
-/

/-- Configuration fields consumed by the accessory (`this.config.*`).
`httpTriggerUrl = none` models an absent URL; JavaScript also treats the
empty string as falsy, see `jsStrFalsy`. -/
structure AccessoryConfig where
  name : String
  gpioPin : Nat
  enableOutput : Bool
  outputGpioPin : Nat
  negateInput : Bool
  glitchTime : Nat
  throttleTime : Nat
  enableHttpTrigger : Bool
  httpTriggerUrl : Option String
deriving DecidableEq

/-- Mutable instance state (lines 22–27): `lastRang`, `doorbellMute`,
`lastPinChangeDate`, `currentPinValue`. `none` models `undefined`. -/
structure DoorbellState where
  lastRang : Option Nat
  doorbellMute : Bool
  lastPinChangeDate : Option Nat
  currentPinValue : Option Bool
deriving DecidableEq

/-- JavaScript truthiness of a `boolean | undefined` value
(`undefined` is falsy). -/
def jsTruthy : Option Bool → Bool
  | none => false
  | some b => b

/-- JavaScript truthiness of a `number | undefined` value
(`undefined` and `0` are falsy). -/
def jsTruthyNat : Option Nat → Bool
  | none => false
  | some n => n != 0

/-- JavaScript falsiness of a `string | undefined` value
(`undefined` and the empty string are falsy). -/
def jsStrFalsy : Option String → Bool
  | none => true
  | some s => s == ""

/-- Outcome of the underlying `GPIO.read` promise: the pin level, or an
error message. -/
inductive ReadOutcome
  | ok (val : Bool)
  | err (msg : String)
deriving DecidableEq

/-- Method `read` (lines 79–90): `readPromise(channel).then(...).catch(...)`
registers continuations that run only after the surrounding function has
already returned, so the local `value` is still `undefined` at the
`return value` on line 89 — whatever the promise later resolves to. The
first component is the value `read` returns synchronously; the second is
the list of deferred `log.error` messages emitted by the `catch`
continuation once the promise settles. -/
def read (channel : Nat) (outcome : ReadOutcome) : Option Bool × List String :=
  (none,
    match outcome with
    | ReadOutcome.ok _ => []
    | ReadOutcome.err msg => [msg])

/-- The persisted-storage key (line 24). -/
def doorbellMuteKey : String := "homebridge-gpio-doorbell.mute"

/-- State after the constructor ran (lines 29–73): mute restored via
`storage.getItemSync(key) || false` (line 64), `currentPinValue` seeded in
`setupGpio` (line 95) from `this.read(this.config.gpioPin)`, everything
else `undefined`. -/
def initialState (cfg : AccessoryConfig) (storedMute : Option Bool)
    (seed : ReadOutcome) : DoorbellState :=
  { lastRang := none
  , doorbellMute := jsTruthy storedMute
  , lastPinChangeDate := none
  , currentPinValue := (read cfg.gpioPin seed).fst }

/-- The synchronous part of `handlePinChange` (lines 109–124): record
`Date.now()` as `lastPinChangeDate` and schedule the delayed evaluation
carrying a snapshot of that identifier. Returns the updated state and the
identifier the scheduled evaluation will carry. -/
def onEdge (st : DoorbellState) (now : Nat) : DoorbellState × Nat :=
  ({ st with lastPinChangeDate := some now }, now)

/-- Lines 146–150: `let buttonPushed = !currentValue;` then
`if (this.config.negateInput) buttonPushed = !buttonPushed;`
(`!undefined` is `true` in JavaScript). -/
def buttonPushed (negateInput : Bool) (currentValue : Option Bool) : Bool :=
  let b := !(jsTruthy currentValue)
  if negateInput then !b else b

/-- Lines 166–169: the throttle guard
`this.lastRang && this.lastRang + this.config.throttleTime >= now`
(a `lastRang` of `undefined` — and, by JavaScript truthiness, `0` — skips
the guard). -/
def throttleSuppressed (lastRang : Option Nat) (throttleTime now : Nat) : Bool :=
  jsTruthyNat lastRang && decide (lastRang.getD 0 + throttleTime ≥ now)

/-- Observable effects of one delayed evaluation: the state after it ran,
the writes issued to the output pin (`GPIO.write(outputGpioPin, ·)`),
whether the local HomeKit ring sink fired
(`updateCharacteristic(ProgrammableSwitchEvent, SINGLE_PRESS)`), and the
URL of a launched webhook request, if any. -/
structure EvalEffects where
  newState : DoorbellState
  outputWrites : List Bool
  localRing : Bool
  remoteRequest : Option String
deriving DecidableEq

/-- Effects of an evaluation that returned early: no mutation, no output
write, no dispatch. -/
def abortEffects (st : DoorbellState) : EvalEffects :=
  { newState := st, outputWrites := [], localRing := false, remoteRequest := none }

/-- Lines 163–207: throttle guard then ring dispatch, for a press
(`buttonPushed` true). Both `Date.now()` calls in the synchronous body
(lines 165 and 175) are modelled as the single instant `now`. Returns the
state after the branch, whether the local ring fired, and the launched
webhook URL if any. -/
def ringDispatch (cfg : AccessoryConfig) (st1 : DoorbellState) (now : Nat) :
    DoorbellState × Bool × Option String :=
  if throttleSuppressed st1.lastRang cfg.throttleTime now then
    (st1, false, none)
  else
    let st2 := { st1 with lastRang := some now }
    if (!cfg.enableHttpTrigger || jsStrFalsy cfg.httpTriggerUrl) then
      (st2, true, none)
    else
      (st2, false, cfg.httpTriggerUrl)

/-- Lines 143–207: the evaluation body once both early-return guards have
passed — accept the fresh level, derive `buttonPushed`, mirror the output
pin when enabled and unmuted (lines 152–161), then run throttle and
dispatch when pushed. -/
def acceptedStep (cfg : AccessoryConfig) (st : DoorbellState)
    (currentValue : Option Bool) (now : Nat) : EvalEffects :=
  let st1 := { st with currentPinValue := currentValue }
  let pushed := buttonPushed cfg.negateInput currentValue
  let writes := if cfg.enableOutput && !st.doorbellMute then [pushed] else []
  if pushed then
    let d := ringDispatch cfg st1 now
    { newState := d.1, outputWrites := writes, localRing := d.2.1,
      remoteRequest := d.2.2 }
  else
    { newState := st1, outputWrites := writes, localRing := false,
      remoteRequest := none }

/-- The body of the delayed evaluation scheduled by `handlePinChange`
(lines 125–207): staleness guard (line 126), no-op guard (line 136), then
`acceptedStep`. The value returned by `this.read(gpioPin)` on line 135 is
passed as the `currentValue` parameter. -/
def processChange (cfg : AccessoryConfig) (st : DoorbellState)
    (changeTimeStamp : Nat) (currentValue : Option Bool) (now : Nat) :
    EvalEffects :=
  if st.lastPinChangeDate ≠ some changeTimeStamp then
    abortEffects st
  else if currentValue = st.currentPinValue then
    abortEffects st
  else
    acceptedStep cfg st currentValue now

/-- A JavaScript exception object as the `catch` block on lines 195–205
inspects it: an axios error optionally carries a `response` with `status`
and `data`, and always a `message`. -/
structure JsError where
  response : Option (Nat × String)
  message : String
deriving DecidableEq

/-- How a launched webhook request eventually settles: success, or a
failure (network error or non-2xx response) that rejects the promise
with the given error. -/
inductive RemoteOutcome
  | ok
  | failed (e : JsError)
deriving DecidableEq

/-- Whether the settled outcome is a failure. -/
def RemoteOutcome.isFailure : RemoteOutcome → Bool
  | RemoteOutcome.ok => false
  | RemoteOutcome.failed _ => true

/-- Synchronous result of evaluating a JavaScript expression: a value, or
a synchronously thrown exception. Only the latter is interceptable by a
surrounding `try`/`catch`. -/
inductive SyncResult (α : Type)
  | value (a : α)
  | thrown (e : JsError)

/-- Call `axios.get(url)` (line 193): returns a promise synchronously and never
throws; HTTP and network failures instead reject the returned promise,
whose eventual outcome is carried in the `value`. -/
def axiosGet (url : String) (outcome : RemoteOutcome) :
    SyncResult RemoteOutcome :=
  SyncResult.value outcome

/-- The `log.error` message built by the `catch` body (lines 195–204) for
a caught exception `e`. -/
def webhookCatchLog (e : JsError) : String :=
  match e.response with
  | some (status, data) =>
      "Request to webhook failed with status code " ++ toString status ++
        ": " ++ data
  | none => "Request to webhook failed with message: " ++ e.message

/-- Observable outcome of the webhook branch: the `log.error` calls made
by the `catch` body, and whether the promise was left rejected with no
handler attached. -/
structure WebhookResult where
  errorLogs : List String
  unhandledRejection : Bool
deriving DecidableEq

/-- Lines 192–205: `try { axios.get(url); } catch (e) { ...log... }`. The
`try`/`catch` intercepts only synchronously thrown exceptions; the promise
returned by `axios.get` is neither awaited nor given a rejection handler,
so when it settles as a failure the rejection is unhandled and the `catch`
body never runs. -/
def webhookDispatch (url : String) (outcome : RemoteOutcome) : WebhookResult :=
  match axiosGet url outcome with
  | SyncResult.value o => { errorLogs := [], unhandledRejection := o.isFailure }
  | SyncResult.thrown e => { errorLogs := [webhookCatchLog e], unhandledRejection := false }

/-- One externally triggered happening in the life of the accessory: a raw
edge notification from `GPIO.on` (running the synchronous part of
`handlePinChange` at time `now`), or a scheduled evaluation firing with
carried identifier `id`, underlying read outcome `outcome`, at time
`now`. -/
inductive GpioEvent
  | edge (now : Nat)
  | fire (id : Nat) (outcome : ReadOutcome) (now : Nat)

/-- State transition for one `GpioEvent`: an edge runs `onEdge`; a firing
evaluation runs `processChange` on the value actually returned by
`this.read(gpioPin)` for its underlying outcome. -/
def applyEvent (cfg : AccessoryConfig) (st : DoorbellState) :
    GpioEvent → DoorbellState
  | GpioEvent.edge now => (onEdge st now).fst
  | GpioEvent.fire id outcome now =>
      (processChange cfg st id (read cfg.gpioPin outcome).fst now).newState

/-- The state reached from `st` after a sequence of events. -/
def runEvents (cfg : AccessoryConfig) (st : DoorbellState)
    (es : List GpioEvent) : DoorbellState :=
  es.foldl (applyEvent cfg) st

/-- The state reached from `st` after `onEdge` calls at the given times. -/
def runEdges (st : DoorbellState) (ts : List Nat) : DoorbellState :=
  ts.foldl (fun s t => (onEdge s t).fst) st

/-- Observable effects of `handleMuteSet`: the state afterwards, the
`storage.setItemSync` calls as (key, value) pairs, and the output-pin
writes issued. -/
structure MuteSetEffects where
  newState : DoorbellState
  persisted : List (String × Bool)
  outputWrites : List Bool
deriving DecidableEq

/-- Method `handleMuteSet` (lines 215–224): set `doorbellMute`, persist it under
`doorbellMuteKey`, and when the new value is false and output is enabled,
write `false` to the output pin. -/
def handleMuteSet (cfg : AccessoryConfig) (st : DoorbellState)
    (value : Bool) : MuteSetEffects :=
  let st1 := { st with doorbellMute := value }
  { newState := st1
  , persisted := [(doorbellMuteKey, st1.doorbellMute)]
  , outputWrites := if !st1.doorbellMute && cfg.enableOutput then [false] else [] }

/-- Method `handleMuteGet` (lines 226–229): return `doorbellMute`, no effects. -/
def handleMuteGet (st : DoorbellState) : Bool :=
  st.doorbellMute

/-- A concrete configuration: output mirroring and remote dispatch both
disabled, glitch delay 100ms, throttle window 1000ms. -/
def cfgLocal : AccessoryConfig :=
  { name := "Doorbell", gpioPin := 7, enableOutput := false, outputGpioPin := 11,
    negateInput := false, glitchTime := 100, throttleTime := 1000,
    enableHttpTrigger := false, httpTriggerUrl := none }

/-- Like `cfgLocal` but with output mirroring enabled. -/
def cfgOut : AccessoryConfig :=
  { cfgLocal with enableOutput := true }

/-- Like `cfgLocal` but with the HTTP trigger enabled and a URL configured. -/
def cfgHttp : AccessoryConfig :=
  { cfgLocal with
    enableHttpTrigger := true
    httpTriggerUrl := some "http://example.local/ring" }

/-- A state with a prior accepted ring at t=1000, mute on, a pending
change identifier 5 and last accepted level `true`. -/
def stThr : DoorbellState :=
  { lastRang := some 1000, doorbellMute := true, lastPinChangeDate := some 5,
    currentPinValue := some true }

/-- Like `stThr` but with mute off. -/
def stThrLoud : DoorbellState :=
  { stThr with doorbellMute := false }

/-- A state with no prior ring, mute off, a pending change identifier 5
and last accepted level unknown. -/
def stFresh : DoorbellState :=
  { lastRang := none, doorbellMute := false, lastPinChangeDate := some 5,
    currentPinValue := none }

/-- The state reached from construction after two raw edges in the same
millisecond (t=5). -/
def stTwoEdges : DoorbellState :=
  runEdges (initialState cfgLocal none (ReadOutcome.ok true)) [5, 5]

/-- The state reached from construction after one raw edge at t=5, via the
whole-program event semantics. -/
def stOneEdge : DoorbellState :=
  runEvents cfgLocal (initialState cfgLocal none (ReadOutcome.ok true))
    [GpioEvent.edge 5]

theorem processChange_stale (cfg : AccessoryConfig) (st : DoorbellState)
    (id : Nat) (v : Option Bool) (now : Nat)
    (h : st.lastPinChangeDate ≠ some id) :
    processChange cfg st id v now = abortEffects st := by
  simp [processChange, h]

theorem processChange_noop (cfg : AccessoryConfig) (st : DoorbellState)
    (id : Nat) (v : Option Bool) (now : Nat)
    (h : v = st.currentPinValue) :
    processChange cfg st id v now = abortEffects st := by
  unfold processChange
  by_cases hs : st.lastPinChangeDate ≠ some id
  · rw [if_pos hs]
  · rw [if_neg hs, if_pos h]

theorem processChange_accepted (cfg : AccessoryConfig) (st : DoorbellState)
    (id : Nat) (v : Option Bool) (now : Nat)
    (hid : st.lastPinChangeDate = some id) (hne : v ≠ st.currentPinValue) :
    processChange cfg st id v now = acceptedStep cfg st v now := by
  unfold processChange
  rw [if_neg (by simp [hid]), if_neg hne]

theorem acceptedStep_notPushed (cfg : AccessoryConfig) (st : DoorbellState)
    (v : Option Bool) (now : Nat)
    (hp : buttonPushed cfg.negateInput v = false) :
    acceptedStep cfg st v now =
      { newState := { st with currentPinValue := v }
      , outputWrites :=
          if cfg.enableOutput && !st.doorbellMute
          then [buttonPushed cfg.negateInput v] else []
      , localRing := false
      , remoteRequest := none } := by
  unfold acceptedStep
  rw [if_neg (by simp [hp])]

theorem acceptedStep_pushed (cfg : AccessoryConfig) (st : DoorbellState)
    (v : Option Bool) (now : Nat)
    (hp : buttonPushed cfg.negateInput v = true) :
    acceptedStep cfg st v now =
      { newState := (ringDispatch cfg { st with currentPinValue := v } now).1
      , outputWrites :=
          if cfg.enableOutput && !st.doorbellMute
          then [buttonPushed cfg.negateInput v] else []
      , localRing := (ringDispatch cfg { st with currentPinValue := v } now).2.1
      , remoteRequest := (ringDispatch cfg { st with currentPinValue := v } now).2.2 } := by
  unfold acceptedStep
  rw [if_pos (by simp [hp])]

theorem acceptedStep_writes (cfg : AccessoryConfig) (st : DoorbellState)
    (v : Option Bool) (now : Nat) :
    (acceptedStep cfg st v now).outputWrites =
      if cfg.enableOutput && !st.doorbellMute
      then [buttonPushed cfg.negateInput v] else [] := by
  cases hp : buttonPushed cfg.negateInput v with
  | false => rw [acceptedStep_notPushed cfg st v now hp]; simp [hp]
  | true => rw [acceptedStep_pushed cfg st v now hp]; simp [hp]

theorem ringDispatch_throttled (cfg : AccessoryConfig) (st1 : DoorbellState)
    (now : Nat)
    (h : throttleSuppressed st1.lastRang cfg.throttleTime now = true) :
    ringDispatch cfg st1 now = (st1, false, none) := by
  unfold ringDispatch
  rw [if_pos h]

theorem ringDispatch_local (cfg : AccessoryConfig) (st1 : DoorbellState)
    (now : Nat)
    (h : throttleSuppressed st1.lastRang cfg.throttleTime now = false)
    (hc : (!cfg.enableHttpTrigger || jsStrFalsy cfg.httpTriggerUrl) = true) :
    ringDispatch cfg st1 now =
      ({ st1 with lastRang := some now }, true, none) := by
  unfold ringDispatch
  rw [if_neg (by simp [h]), if_pos hc]

theorem ringDispatch_remote (cfg : AccessoryConfig) (st1 : DoorbellState)
    (now : Nat)
    (h : throttleSuppressed st1.lastRang cfg.throttleTime now = false)
    (hc : (!cfg.enableHttpTrigger || jsStrFalsy cfg.httpTriggerUrl) = false) :
    ringDispatch cfg st1 now =
      ({ st1 with lastRang := some now }, false, cfg.httpTriggerUrl) := by
  unfold ringDispatch
  rw [if_neg (by simp [h]), if_neg (by simp [hc])]

theorem jsStrFalsy_false_ne_none (u : Option String)
    (h : jsStrFalsy u = false) : u ≠ none := by
  cases u with
  | none => simp [jsStrFalsy] at h
  | some s => simp

theorem read_fst_none (ch : Nat) (o : ReadOutcome) : (read ch o).fst = none := rfl

theorem applyEvent_currentPinValue_none (cfg : AccessoryConfig)
    (st : DoorbellState) (e : GpioEvent) (h : st.currentPinValue = none) :
    (applyEvent cfg st e).currentPinValue = none := by
  cases e with
  | edge now => simpa [applyEvent, onEdge] using h
  | fire id outcome now =>
      by_cases hs : st.lastPinChangeDate = some id
      · have := processChange_noop cfg st id (read cfg.gpioPin outcome).fst now
          (by rw [read_fst_none, h])
        simp [applyEvent, this, abortEffects, h]
      · have := processChange_stale cfg st id (read cfg.gpioPin outcome).fst now hs
        simp [applyEvent, this, abortEffects, h]

theorem runEvents_currentPinValue_none (cfg : AccessoryConfig)
    (st : DoorbellState) (es : List GpioEvent)
    (h : st.currentPinValue = none) :
    (runEvents cfg st es).currentPinValue = none := by
  induction es generalizing st with
  | nil => simpa [runEvents] using h
  | cons e es ih =>
      rw [runEvents, List.foldl_cons]
      exact ih _ (applyEvent_currentPinValue_none cfg st e h)

theorem initialState_currentPinValue (cfg : AccessoryConfig)
    (storedMute : Option Bool) (seed : ReadOutcome) :
    (initialState cfg storedMute seed).currentPinValue = none := rfl

theorem runEdges_append_last (st : DoorbellState) (pre : List Nat)
    (tlast : Nat) :
    (runEdges st (pre ++ [tlast])).lastPinChangeDate = some tlast := by
  unfold runEdges
  rw [List.foldl_append]
  rfl

/-- C1 (corrected claim): throttle boundary is inclusive in favour of
suppression. For an evaluation that passes both guards and derives
`buttonPushed = true`: with a prior accepted ring at a nonzero time `t0`,
the press is suppressed (no dispatch, `lastRang` unchanged) whenever
`now ≤ t0 + throttleTime`, and accepted (`lastRang := now`, exactly one
dispatch path taken) only when `t0 + throttleTime < now`; with no prior
ring it is always accepted. -/
theorem C1_throttle_boundary (cfg : AccessoryConfig) (st : DoorbellState)
    (id now : Nat) (v : Option Bool)
    (hid : st.lastPinChangeDate = some id)
    (hne : v ≠ st.currentPinValue)
    (hp : buttonPushed cfg.negateInput v = true) :
    (∀ t0, st.lastRang = some t0 → 0 < t0 → now ≤ t0 + cfg.throttleTime →
      (processChange cfg st id v now).localRing = false ∧
      (processChange cfg st id v now).remoteRequest = none ∧
      (processChange cfg st id v now).newState.lastRang = some t0) ∧
    (∀ t0, st.lastRang = some t0 → 0 < t0 → t0 + cfg.throttleTime < now →
      (processChange cfg st id v now).newState.lastRang = some now ∧
      ((processChange cfg st id v now).localRing = true ∨
        (processChange cfg st id v now).remoteRequest ≠ none)) ∧
    (st.lastRang = none →
      (processChange cfg st id v now).newState.lastRang = some now ∧
      ((processChange cfg st id v now).localRing = true ∨
        (processChange cfg st id v now).remoteRequest ≠ none)) := by
  rw [processChange_accepted cfg st id v now hid hne,
      acceptedStep_pushed cfg st v now hp]
  refine ⟨?_, ?_, ?_⟩
  · intro t0 hr ht0 hle
    have hsup : throttleSuppressed ({ st with currentPinValue := v }).lastRang
        cfg.throttleTime now = true := by
      show throttleSuppressed st.lastRang cfg.throttleTime now = true
      rw [hr]
      simp [throttleSuppressed, jsTruthyNat]
      exact ⟨Nat.pos_iff_ne_zero.mp ht0, hle⟩
    rw [ringDispatch_throttled cfg _ now hsup]
    exact ⟨rfl, rfl, hr⟩
  · intro t0 hr ht0 hlt
    have hsup : throttleSuppressed ({ st with currentPinValue := v }).lastRang
        cfg.throttleTime now = false := by
      show throttleSuppressed st.lastRang cfg.throttleTime now = false
      rw [hr]
      simp [throttleSuppressed, jsTruthyNat]
      omega
    cases hc : (!cfg.enableHttpTrigger || jsStrFalsy cfg.httpTriggerUrl) with
    | true =>
        rw [ringDispatch_local cfg _ now hsup hc]
        exact ⟨rfl, Or.inl rfl⟩
    | false =>
        rw [ringDispatch_remote cfg _ now hsup hc]
        refine ⟨rfl, Or.inr ?_⟩
        have hf : jsStrFalsy cfg.httpTriggerUrl = false := by
          cases h1 : (!cfg.enableHttpTrigger) <;>
            cases h2 : jsStrFalsy cfg.httpTriggerUrl <;> simp_all
        exact jsStrFalsy_false_ne_none _ hf
  · intro hrn
    have hsup : throttleSuppressed ({ st with currentPinValue := v }).lastRang
        cfg.throttleTime now = false := by
      show throttleSuppressed st.lastRang cfg.throttleTime now = false
      rw [hrn]
      simp [throttleSuppressed, jsTruthyNat]
    cases hc : (!cfg.enableHttpTrigger || jsStrFalsy cfg.httpTriggerUrl) with
    | true =>
        rw [ringDispatch_local cfg _ now hsup hc]
        exact ⟨rfl, Or.inl rfl⟩
    | false =>
        rw [ringDispatch_remote cfg _ now hsup hc]
        refine ⟨rfl, Or.inr ?_⟩
        have hf : jsStrFalsy cfg.httpTriggerUrl = false := by
          cases h1 : (!cfg.enableHttpTrigger) <;>
            cases h2 : jsStrFalsy cfg.httpTriggerUrl <;> simp_all
        exact jsStrFalsy_false_ne_none _ hf

/-- C1 witness: with throttle window 1000, a prior ring at t=1000 and a
press derived at now=1999 (inside the window), `lastRang` is unchanged. -/
theorem C1_throttle_boundary_witness :
    (processChange cfgLocal stThr 5 (some false) 1999).newState.lastRang = some 1000 :=
  ((C1_throttle_boundary cfgLocal stThr 5 1999 (some false) rfl (by decide)
      (by decide)).1 1000 rfl (by decide) (by decide)).2.2

/-- C1 counterexample: the claim says a press derived exactly at
`now - t0 = throttleWindow` is accepted (`lastRang := now`, dispatch
proceeds). With `throttleTime = 1000`, a prior ring at t0=1000 and a press
derived at now=2000, the code's guard `lastRang + throttleTime >= now`
holds with equality, so the press is suppressed: no sink fires and
`lastRang` stays 1000 instead of becoming 2000. -/
theorem C1_counterexample :
    (processChange cfgLocal stThr 5 (some false) 2000).localRing = false ∧
    (processChange cfgLocal stThr 5 (some false) 2000).remoteRequest = none ∧
    (processChange cfgLocal stThr 5 (some false) 2000).newState.lastRang = some 1000 := by
  decide

/-- C2 (code bug): a remote-dispatch failure is NOT caught or logged by
the dispatch path. `axios.get(url)` is launched without `await`, so a
network error or non-2xx response rejects the returned promise after the
`try`/`catch` has already been left: the `catch` body (whose log messages
name the status code and body) never runs, no error is logged, and the
rejection is unhandled — for a failure with a 500 response as well as for
a plain network error. -/
theorem C2_remote_failure_uncaught :
    (webhookDispatch "http://example.local/ring"
      (RemoteOutcome.failed { response := some (500, "oops"), message := "Request failed" })).errorLogs = [] ∧
    (webhookDispatch "http://example.local/ring"
      (RemoteOutcome.failed { response := some (500, "oops"), message := "Request failed" })).unhandledRejection = true ∧
    (webhookDispatch "http://example.local/ring"
      (RemoteOutcome.failed { response := none, message := "connect ECONNREFUSED" })).errorLogs = [] ∧
    (webhookDispatch "http://example.local/ring"
      (RemoteOutcome.failed { response := none, message := "connect ECONNREFUSED" })).unhandledRejection = true :=
  ⟨rfl, rfl, rfl, rfl⟩

/-- C3: every scheduled evaluation that runs its live read and finds it
failed is indeterminate. In every state reachable from construction,
`currentPinValue` is `none`, so an evaluation whose read fails (returning
`undefined`) hits the no-op guard: no state mutation, no output write, no
dispatch; the read's `catch` continuation logs the error, and nothing is
thrown (the evaluation is a total function into `EvalEffects`). -/
theorem C3_failed_read_indeterminate (cfg : AccessoryConfig)
    (storedMute : Option Bool) (seed : ReadOutcome) (es : List GpioEvent)
    (st : DoorbellState)
    (hst : st = runEvents cfg (initialState cfg storedMute seed) es)
    (ch id now : Nat) (msg : String)
    (hid : st.lastPinChangeDate = some id) :
    processChange cfg st id (read ch (ReadOutcome.err msg)).fst now =
      abortEffects st ∧
    (read ch (ReadOutcome.err msg)).snd = [msg] := by
  have hcv : st.currentPinValue = none := by
    rw [hst]
    exact runEvents_currentPinValue_none cfg _ es
      (initialState_currentPinValue cfg storedMute seed)
  refine ⟨?_, rfl⟩
  exact processChange_noop cfg st id _ now (by rw [read_fst_none, hcv])

/-- C3 witness: after construction and one edge at t=5, the evaluation
carrying identifier 5 whose read fails with "EIO" aborts with no effects,
and the read's catch continuation logs "EIO". -/
theorem C3_failed_read_indeterminate_witness :
    processChange cfgLocal stOneEdge 5 (read 7 (ReadOutcome.err "EIO")).fst 105 =
      abortEffects stOneEdge ∧
    (read 7 (ReadOutcome.err "EIO")).snd = ["EIO"] :=
  C3_failed_read_indeterminate cfgLocal none (ReadOutcome.ok true)
    [GpioEvent.edge 5] stOneEdge rfl 7 5 105 "EIO" (by decide)

/-- C4 (corrected claim): `onEdge` records the call's millisecond
timestamp (`Date.now()`) as the change identifier, and an evaluation whose
carried identifier differs from the current `lastPinChangeDate` at fire
time performs no state mutation and no dispatch. Hence after any burst of
edges, only an evaluation carrying the last call's timestamp can act:
every evaluation carrying a different identifier is a no-op. (Identifiers
are fresh only across distinct timestamps — see the counterexample.) -/
theorem C4_staleness (cfg : AccessoryConfig) (st0 : DoorbellState)
    (pre : List Nat) (tlast id : Nat) (v : Option Bool) (now : Nat)
    (hstale : id ≠ tlast) :
    (runEdges st0 (pre ++ [tlast])).lastPinChangeDate = some tlast ∧
    processChange cfg (runEdges st0 (pre ++ [tlast])) id v now =
      abortEffects (runEdges st0 (pre ++ [tlast])) := by
  have h1 := runEdges_append_last st0 pre tlast
  refine ⟨h1, processChange_stale cfg _ id v now ?_⟩
  rw [h1]
  intro hc
  exact hstale (Option.some.inj hc).symm

/-- C4 witness: after edges at t=3 then t=9, the evaluation carrying
identifier 3 is a no-op. -/
theorem C4_staleness_witness :
    (runEdges stFresh ([3] ++ [9])).lastPinChangeDate = some 9 ∧
    processChange cfgLocal (runEdges stFresh ([3] ++ [9])) 3 (some true) 200 =
      abortEffects (runEdges stFresh ([3] ++ [9])) :=
  C4_staleness cfgLocal stFresh [3] 9 3 (some true) 200 (by decide)

/-- C4 counterexample: `Date.now()` has millisecond resolution, so two
`onEdge` calls in the same millisecond (t=5, gap 0 < glitchTime = 100) get
the SAME identifier — not strictly distinguishable — and the evaluation
scheduled by the FIRST call (carrying 5, firing at t=105 before the second
call's) passes the staleness check and produces a state change, refuting
"only the evaluation scheduled by the last call may produce a state
change". -/
theorem C4_counterexample :
    (onEdge (onEdge (initialState cfgLocal none (ReadOutcome.ok true)) 5).fst 5).snd =
      (onEdge (initialState cfgLocal none (ReadOutcome.ok true)) 5).snd ∧
    (processChange cfgLocal stTwoEdges 5 (some true) 105).newState ≠ stTwoEdges := by
  decide

/-- C5: for an accepted press that is not throttled, exactly one sink
fires — the local HomeKit ring when the HTTP trigger is off or the URL is
unset/empty, otherwise the webhook request (with a non-absent URL) — never
both, never neither; and for an accepted release (`buttonPushed = false`)
neither sink fires and `lastRang` is untouched. -/
theorem C5_dispatch_exclusivity (cfg : AccessoryConfig) (st : DoorbellState)
    (id now : Nat) (v : Option Bool)
    (hid : st.lastPinChangeDate = some id)
    (hne : v ≠ st.currentPinValue) :
    (buttonPushed cfg.negateInput v = true →
      throttleSuppressed st.lastRang cfg.throttleTime now = false →
      (((!cfg.enableHttpTrigger || jsStrFalsy cfg.httpTriggerUrl) = true →
        (processChange cfg st id v now).localRing = true ∧
        (processChange cfg st id v now).remoteRequest = none) ∧
       ((!cfg.enableHttpTrigger || jsStrFalsy cfg.httpTriggerUrl) = false →
        (processChange cfg st id v now).localRing = false ∧
        (processChange cfg st id v now).remoteRequest = cfg.httpTriggerUrl ∧
        cfg.httpTriggerUrl ≠ none))) ∧
    (buttonPushed cfg.negateInput v = false →
      (processChange cfg st id v now).localRing = false ∧
      (processChange cfg st id v now).remoteRequest = none ∧
      (processChange cfg st id v now).newState.lastRang = st.lastRang) := by
  rw [processChange_accepted cfg st id v now hid hne]
  constructor
  · intro hp hsup
    rw [acceptedStep_pushed cfg st v now hp]
    have hsup' : throttleSuppressed ({ st with currentPinValue := v }).lastRang
        cfg.throttleTime now = false := hsup
    constructor
    · intro hc
      rw [ringDispatch_local cfg _ now hsup' hc]
      exact ⟨rfl, rfl⟩
    · intro hc
      rw [ringDispatch_remote cfg _ now hsup' hc]
      have hf : jsStrFalsy cfg.httpTriggerUrl = false := by
        cases h1 : (!cfg.enableHttpTrigger) <;>
          cases h2 : jsStrFalsy cfg.httpTriggerUrl <;> simp_all
      exact ⟨rfl, rfl, jsStrFalsy_false_ne_none _ hf⟩
  · intro hp
    rw [acceptedStep_notPushed cfg st v now hp]
    exact ⟨rfl, rfl, rfl⟩

/-- C5 witness: with the HTTP trigger configured, an accepted,
non-throttled press launches the webhook request and does not fire the
local ring. -/
theorem C5_dispatch_exclusivity_witness :
    (processChange cfgHttp stFresh 5 (some false) 200).localRing = false ∧
    (processChange cfgHttp stFresh 5 (some false) 200).remoteRequest = cfgHttp.httpTriggerUrl ∧
    cfgHttp.httpTriggerUrl ≠ none :=
  ((C5_dispatch_exclusivity cfgHttp stFresh 5 200 (some false) rfl
      (by decide)).1 (by decide) (by decide)).2 (by decide)

/-- C6: on every accepted transition, mute true means no output-pin write
at all regardless of the derived `buttonPushed`; mute false with output
mirroring enabled means exactly one write of the derived `buttonPushed`.
The decision reads the state's mute flag at evaluation time (the theorem
holds for every state, whatever its mute value). -/
theorem C6_mute_gating (cfg : AccessoryConfig) (st : DoorbellState)
    (id now : Nat) (v : Option Bool)
    (hid : st.lastPinChangeDate = some id)
    (hne : v ≠ st.currentPinValue) :
    (st.doorbellMute = true → (processChange cfg st id v now).outputWrites = []) ∧
    (st.doorbellMute = false → cfg.enableOutput = true →
      (processChange cfg st id v now).outputWrites = [buttonPushed cfg.negateInput v]) := by
  rw [processChange_accepted cfg st id v now hid hne, acceptedStep_writes]
  constructor
  · intro hm
    simp [hm]
  · intro hm ho
    simp [hm, ho]

/-- C6 witness: with output enabled and mute off, an accepted press writes
the derived `buttonPushed` to the output pin. -/
theorem C6_mute_gating_witness :
    (processChange cfgOut stFresh 5 (some false) 200).outputWrites =
      [buttonPushed cfgOut.negateInput (some false)] :=
  (C6_mute_gating cfgOut stFresh 5 200 (some false) rfl (by decide)).2 rfl rfl

/-- C7: `handleMuteSet value` sets the in-memory mute flag to `value`,
persists exactly that value under the mute key (overwriting any prior
stored value), and issues exactly one output-pin write of `false` if and
only if `value` is false and output mirroring is enabled — regardless of
the rest of the state. -/
theorem C7_set_mute (cfg : AccessoryConfig) (st : DoorbellState)
    (value : Bool) :
    (handleMuteSet cfg st value).newState.doorbellMute = value ∧
    (handleMuteSet cfg st value).persisted = [(doorbellMuteKey, value)] ∧
    (handleMuteSet cfg st value).outputWrites =
      (if value = false ∧ cfg.enableOutput = true then [false] else []) := by
  refine ⟨rfl, rfl, ?_⟩
  unfold handleMuteSet
  cases value <;> cases hc : cfg.enableOutput <;> simp [hc]

/-- C8: button-press derivation is the pure function
`pushed = negateInput ? value : !value` of the accepted level; in
particular for raw level `true` (circuit open), `negateInput = false`
yields `pushed = false` and `negateInput = true` yields `pushed = true`. -/
theorem C8_invert_semantics (neg v : Bool) :
    buttonPushed neg (some v) = (if neg then v else !v) ∧
    buttonPushed false (some true) = false ∧
    buttonPushed true (some true) = true := by
  refine ⟨?_, rfl, rfl⟩
  cases neg <;> cases v <;> rfl

/-- C9: `read` always returns `undefined` — its local `value` is only
assigned inside a promise continuation that runs after the synchronous
`return` — for every channel and every underlying outcome; consequently
the `currentPinValue` seeded at construction is always `undefined`. -/
theorem C9_read_always_undefined :
    (∀ (channel : Nat) (o : ReadOutcome), (read channel o).fst = none) ∧
    (∀ (cfg : AccessoryConfig) (m : Option Bool) (s : ReadOutcome),
      (initialState cfg m s).currentPinValue = none) :=
  ⟨fun _ _ => rfl, fun _ _ _ => rfl⟩

/-- C10: output mirroring runs before the throttle check, so an accepted
press with output enabled and mute off writes the output pin even when
the throttle window then suppresses dispatch: the write `[true]` is
issued while neither sink fires and `lastRang` is unchanged. -/
theorem C10_output_write_despite_throttle (cfg : AccessoryConfig)
    (st : DoorbellState) (id now : Nat) (v : Option Bool)
    (hid : st.lastPinChangeDate = some id)
    (hne : v ≠ st.currentPinValue)
    (hout : cfg.enableOutput = true)
    (hmute : st.doorbellMute = false)
    (hp : buttonPushed cfg.negateInput v = true)
    (hsup : throttleSuppressed st.lastRang cfg.throttleTime now = true) :
    (processChange cfg st id v now).outputWrites = [true] ∧
    (processChange cfg st id v now).localRing = false ∧
    (processChange cfg st id v now).remoteRequest = none ∧
    (processChange cfg st id v now).newState.lastRang = st.lastRang := by
  rw [processChange_accepted cfg st id v now hid hne,
      acceptedStep_pushed cfg st v now hp]
  have hsup' : throttleSuppressed ({ st with currentPinValue := v }).lastRang
      cfg.throttleTime now = true := hsup
  rw [ringDispatch_throttled cfg _ now hsup']
  refine ⟨?_, rfl, rfl, rfl⟩
  simp [hout, hmute, hp]

/-- C10 witness: prior ring at t=1000, window 1000, press at now=1500
(throttled): the output pin is still written `true`, no sink fires, and
`lastRang` stays put. -/
theorem C10_output_write_despite_throttle_witness :
    (processChange cfgOut stThrLoud 5 (some false) 1500).outputWrites = [true] ∧
    (processChange cfgOut stThrLoud 5 (some false) 1500).localRing = false ∧
    (processChange cfgOut stThrLoud 5 (some false) 1500).remoteRequest = none ∧
    (processChange cfgOut stThrLoud 5 (some false) 1500).newState.lastRang = stThrLoud.lastRang :=
  C10_output_write_despite_throttle cfgOut stThrLoud 5 1500 (some false)
    rfl (by decide) rfl rfl (by decide) (by decide)
